import Mathlib

/-!
Shallow embedding of the Unreal object-pooling subsystem
(`UnrealObjectPooler.h` / `UnrealObjectPooler.cpp`) in Lean 4.

Modelling choices:
* An actor (`AActor*`) is a natural-number id allocated by the host world.
* A class (`UClass*` / `TSubclassOf<AActor>`) is a natural-number id; a null
  `TSubclassOf` is `Option.none`.
* `TMap` is an association list with unique keys maintained by the
  operations (`tmapFind` returns the first binding, `tmapAdd` replaces the
  first binding or appends).
* `TArray<AActor*> InactiveActors` is a `List Nat` with the TOP of the
  stack at the HEAD: the C++ `Pop` removes from the array's end and
  `AddUnique` appends at the end, so both operate at the same end; the
  head-first representation keeps the same stack behaviour.
* The host world is part of the state: `validActors` is `IsValid`,
  `spawnOracle`/`spawnCount` decide whether each successive
  `World->SpawnActor` call succeeds, `compOf` gives the number of
  sub-components an actor of a given id owns, and flags record the
  visibility / collision / tick / component-activation state that
  `SetActorActive` toggles.
-/

/-- The `EPoolType` enum from the header. -/
inductive EPoolType where
  | Nodes
  | NodesSpawner
  | GameObjects
  | Billboards
deriving DecidableEq

/-- A 3-component vector standing in for `FVector` / `FRotator`. -/
abbrev V3 := Int × Int × Int

/-- The per-actor state toggled by `SetActorActive` and
`SetActorLocationAndRotation`: hidden-in-game, collision, tick, the
activation flags of the attached components, and the placement. -/
structure FActorFlags where
  hiddenInGame : Bool
  collisionEnabled : Bool
  tickEnabled : Bool
  components : List Bool
  loc : V3
  rot : V3

/-- The whole system state: the host world together with the
`UUnrealObjectPooler` subsystem fields (`ObjectPools`, `ActorToClassMap`,
`PoolRoots`, `MainPoolRoot`). `warnings` counts `UE_LOG` warning emissions. -/
structure SysState where
  hasWorld : Bool
  nextId : Nat
  validActors : Nat → Bool
  actorFlags : Nat → FActorFlags
  parentOf : Nat → Option Nat
  spawnOracle : Nat → Bool
  spawnCount : Nat
  compOf : Nat → Nat
  warnings : Nat
  objectPools : List (Nat × List Nat)
  actorToClassMap : List (Nat × Nat)
  poolRoots : List (EPoolType × Nat)
  mainPoolRoot : Option Nat

/-- `TMap::Find`: first binding of the key, if any. -/
def tmapFind {α β : Type} [DecidableEq α] : List (α × β) → α → Option β
  | [], _ => none
  | (k0, v0) :: rest, k => if k0 = k then some v0 else tmapFind rest k

/-- `TMap::Add` (also the write-back of a `FindOrAdd` reference): replace
the first binding of the key, or append a new binding. -/
def tmapAdd {α β : Type} [DecidableEq α] : List (α × β) → α → β → List (α × β)
  | [], k, v => [(k, v)]
  | (k0, v0) :: rest, k, v =>
      if k0 = k then (k, v) :: rest else (k0, v0) :: tmapAdd rest k v

/-- `TArray::AddUnique` on the inactive-actor stack (head = top). -/
def addUnique (l : List Nat) (a : Nat) : List Nat :=
  if a ∈ l then l else a :: l

/-- `IsValid` on a possibly-null actor pointer. -/
def isValidOpt (s : SysState) : Option Nat → Bool
  | none => false
  | some a => s.validActors a

/-- `World->SpawnActor`: consult the oracle for this call; on success
allocate a fresh id, mark it valid and give it default flags at the
requested placement. -/
def spawnActorHost (s : SysState) (loc rot : V3) : Option Nat × SysState :=
  if s.spawnOracle s.spawnCount then
    (some s.nextId,
      { s with
        nextId := s.nextId + 1
        spawnCount := s.spawnCount + 1
        validActors := fun n => if n = s.nextId then true else s.validActors n
        actorFlags := fun n =>
          if n = s.nextId then
            { hiddenInGame := false, collisionEnabled := true,
              tickEnabled := true,
              components := List.replicate (s.compOf s.nextId) false,
              loc := loc, rot := rot }
          else s.actorFlags n })
  else
    (none, { s with spawnCount := s.spawnCount + 1 })

/-- `AActor::Destroy`: the actor stops being valid. -/
def destroyActorHost (s : SysState) (a : Nat) : SysState :=
  { s with validActors := fun n => if n = a then false else s.validActors n }

/-- `AActor::AttachToActor` (organizational parenting only). -/
def attachTo (s : SysState) (child : Nat) (parent : Option Nat) : SysState :=
  { s with parentOf := fun n => if n = child then parent else s.parentOf n }

/-- `AActor::SetActorLocationAndRotation`. -/
def setLocRot (s : SysState) (a : Nat) (loc rot : V3) : SysState :=
  { s with actorFlags := fun n =>
      if n = a then
        { hiddenInGame := (s.actorFlags a).hiddenInGame
          collisionEnabled := (s.actorFlags a).collisionEnabled
          tickEnabled := (s.actorFlags a).tickEnabled
          components := (s.actorFlags a).components
          loc := loc, rot := rot }
      else s.actorFlags n }

/-- `UUnrealObjectPooler::SetActorActive`: on a valid actor, set
hidden-in-game to the negation, collision and tick to the flag, and
activate or deactivate every attached component. -/
def SetActorActive (s : SysState) (a : Nat) (bActive : Bool) : SysState :=
  if s.validActors a then
    { s with actorFlags := fun n =>
        if n = a then
          { hiddenInGame := !bActive
            collisionEnabled := bActive
            tickEnabled := bActive
            components := (s.actorFlags a).components.map (fun _ => bActive)
            loc := (s.actorFlags a).loc
            rot := (s.actorFlags a).rot }
        else s.actorFlags n }
  else s

/-- The while-loop of `SpawnObject`: pop from the stack until a valid
actor is found (invalid ones are discarded) or the stack is exhausted. -/
def popValid (s : SysState) : List Nat → Option Nat × List Nat
  | [] => (none, [])
  | a :: rest => if s.validActors a then (some a, rest) else popValid s rest

/-- Create a new per-category root actor, attach it under the main root and
record it in `PoolRoots` (second half of `GetOrCreatePoolRoot`; the C++
assumes this vanilla spawn succeeds). -/
def mkNewRoot (s : SysState) (pt : EPoolType) : Option Nat × SysState :=
  let pr := spawnActorHost s (0, 0, 0) (0, 0, 0)
  match pr.1 with
  | some root =>
      let s2 := attachTo pr.2 root pr.2.mainPoolRoot
      (some root, { s2 with poolRoots := tmapAdd s2.poolRoots pt root })
  | none => (none, pr.2)

/-- First half of `GetOrCreatePoolRoot`: if `MainPoolRoot` is not valid,
spawn a fresh overarching root actor (the C++ proceeds even when the
spawn fails, leaving the null result in `MainPoolRoot`). -/
def ensureMainRoot (s : SysState) : SysState :=
  if isValidOpt s s.mainPoolRoot then s
  else
    let pr := spawnActorHost s (0, 0, 0) (0, 0, 0)
    { pr.2 with mainPoolRoot := pr.1 }

/-- Second half of `GetOrCreatePoolRoot`: return the cached category root
when present and still valid, otherwise create a replacement. -/
def rootFromCache (s : SysState) (pt : EPoolType) : Option Nat × SysState :=
  match tmapFind s.poolRoots pt with
  | some r => if s.validActors r then (some r, s) else mkNewRoot s pt
  | none => mkNewRoot s pt

/-- `UUnrealObjectPooler::GetOrCreatePoolRoot`: needs a world; lazily
(re)creates the main root if it is not valid; returns the cached category
root when still valid, otherwise creates a replacement. -/
def GetOrCreatePoolRoot (s : SysState) (pt : EPoolType) : Option Nat × SysState :=
  if s.hasWorld then rootFromCache (ensureMainRoot s) pt
  else (none, s)

/-- `UUnrealObjectPooler::SpawnObject`: null class or no world fail early;
`FindOrAdd` materializes the pool entry; the while-loop pops until a valid
actor is found; otherwise a new actor is spawned (`AlwaysSpawn`), recorded
in `ActorToClassMap` and attached under its category root; any returned
actor gets the requested placement and is activated. -/
def SpawnObject (s : SysState) (actorClass : Option Nat) (loc rot : V3)
    (poolType : EPoolType) : Option Nat × SysState :=
  match actorClass with
  | none => (none, s)
  | some cls =>
    if s.hasWorld then
      let pool0 := (tmapFind s.objectPools cls).getD []
      let pr := popValid s pool0
      let s1 := { s with objectPools := tmapAdd s.objectPools cls pr.2 }
      match pr.1 with
      | some a =>
          let s2 := setLocRot s1 a loc rot
          (some a, SetActorActive s2 a true)
      | none =>
          let sp := spawnActorHost s1 loc rot
          match sp.1 with
          | none => (none, sp.2)
          | some a =>
              let s3 := { sp.2 with
                actorToClassMap := tmapAdd sp.2.actorToClassMap a cls }
              let rr := GetOrCreatePoolRoot s3 poolType
              let s5 := attachTo rr.2 a rr.1
              let s6 := setLocRot s5 a loc rot
              (some a, SetActorActive s6 a true)
    else (none, s)

/-- `UUnrealObjectPooler::ReturnObjectToPool`: no-op on an invalid actor;
a recorded actor is deactivated and added (`AddUnique`) to its class's
pool; an unrecorded actor triggers a warning and is destroyed. -/
def ReturnObjectToPool (s : SysState) (actor : Nat) : SysState :=
  if s.validActors actor then
    match tmapFind s.actorToClassMap actor with
    | some cls =>
        let s1 := SetActorActive s actor false
        let pool0 := (tmapFind s1.objectPools cls).getD []
        { s1 with objectPools := tmapAdd s1.objectPools cls (addUnique pool0 actor) }
    | none =>
        destroyActorHost { s with warnings := s.warnings + 1 } actor
  else s

/-- The loop body of `InitializePool`, iterated a `Nat` number of times. -/
def initLoop (s : SysState) (cls : Nat) (pt : EPoolType) : Nat → SysState
  | 0 => s
  | Nat.succ n =>
      let pr := SpawnObject s (some cls) (0, 0, 0) (0, 0, 0) pt
      let s2 :=
        match pr.1 with
        | some a => ReturnObjectToPool pr.2 a
        | none => pr.2
      initLoop s2 cls pt n

/-- `UUnrealObjectPooler::InitializePool`: null class is a no-op; otherwise
run `Count` iterations of spawn-then-return (a non-positive `int32 Count`
runs the `for` loop zero times). -/
def InitializePool (s : SysState) (actorClass : Option Nat) (count : Int)
    (pt : EPoolType) : SysState :=
  match actorClass with
  | none => s
  | some cls => initLoop s cls pt count.toNat

/-- Destroy every still-valid actor of one pool's inactive list
(inner loop of `DeinitializePool`). -/
def destroyPoolList (s : SysState) (l : List Nat) : SysState :=
  l.foldl (fun st a => if st.validActors a then destroyActorHost st a else st) s

/-- Outer loop of `DeinitializePool`: destroy every still-valid actor of every
pool's inactive list. -/
def destroyAllPools (s : SysState) : SysState :=
  s.objectPools.foldl (fun st p => destroyPoolList st p.2) s

/-- The `Empty()` calls of `DeinitializePool` on the three maps. -/
def clearMaps (s : SysState) : SysState :=
  { s with objectPools := [], actorToClassMap := [], poolRoots := [] }

/-- Final step of `DeinitializePool`: destroy the main root and clear the
reference, but only when it is still valid (a stale non-null reference is
left in place). -/
def destroyMainRoot (s : SysState) : SysState :=
  match s.mainPoolRoot with
  | some r =>
      if s.validActors r then
        { destroyActorHost s r with mainPoolRoot := none }
      else s
  | none => s

/-- `UUnrealObjectPooler` teardown override (named `DeinitializePool` here): destroy all valid pooled actors,
empty the three maps, and destroy the main root if it is valid (note: the
per-category root actors are not destroyed, only their map entries are
dropped). -/
def DeinitializePool (s : SysState) : SysState :=
  destroyMainRoot (clearMaps (destroyAllPools s))

/-- The activation invariant of the spec: visible (not hidden),
interaction-enabled, update-enabled, every sub-component active. -/
def ActiveFlags (f : FActorFlags) : Prop :=
  f.hiddenInGame = false ∧ f.collisionEnabled = true ∧
    f.tickEnabled = true ∧ ∀ b ∈ f.components, b = true

/-- The deactivation counterpart: hidden, interaction and update disabled,
every sub-component deactivated. -/
def InactiveFlags (f : FActorFlags) : Prop :=
  f.hiddenInGame = true ∧ f.collisionEnabled = false ∧
    f.tickEnabled = false ∧ ∀ b ∈ f.components, b = false

/-- Reachability invariant: every actor sitting in some pool's inactive
list is recorded in `ActorToClassMap` (the code only ever pools recorded
actors). -/
def PoolsOwned (s : SysState) : Prop :=
  ∀ p ∈ s.objectPools, ∀ a ∈ p.2, (tmapFind s.actorToClassMap a).isSome = true

/-- Neutral flag record for actors that do not exist yet. -/
def zeroFlags : FActorFlags :=
  { hiddenInGame := false, collisionEnabled := true, tickEnabled := true,
    components := [], loc := (0, 0, 0), rot := (0, 0, 0) }

/-- A freshly initialized subsystem in a live world whose host always
constructs successfully; every actor has two sub-components. -/
def freshState : SysState :=
  { hasWorld := true, nextId := 0, validActors := fun _ => false,
    actorFlags := fun _ => zeroFlags, parentOf := fun _ => none,
    spawnOracle := fun _ => true, spawnCount := 0, compOf := fun _ => 2,
    warnings := 0, objectPools := [], actorToClassMap := [], poolRoots := [],
    mainPoolRoot := none }

/-- Like `freshState`, but the host refuses every construction request. -/
def refuseState : SysState :=
  { freshState with spawnOracle := fun _ => false }

/-- A state with one valid actor (id 0) recorded for class 4 and currently
checked out (in no pool). -/
def mappedState : SysState :=
  { freshState with
      nextId := 10
      validActors := fun n => n == 0
      actorToClassMap := [(0, 4)] }

/-- A state with one valid actor (id 5) that the pooler never recorded. -/
def foreignState : SysState :=
  { freshState with
      nextId := 10
      validActors := fun n => n == 5 }

/-! ### Basic lemmas about the map, stack and host primitives -/

theorem tmapFind_tmapAdd_self {α β : Type} [DecidableEq α]
    (m : List (α × β)) (k : α) (v : β) :
    tmapFind (tmapAdd m k v) k = some v := by
  induction m with
  | nil => simp [tmapAdd, tmapFind]
  | cons p rest ih =>
      obtain ⟨k0, v0⟩ := p
      by_cases h : k0 = k
      · simp [tmapAdd, h, tmapFind]
      · simp [tmapAdd, h, tmapFind, ih]

theorem tmapFind_tmapAdd_ne {α β : Type} [DecidableEq α]
    (m : List (α × β)) (k k2 : α) (v : β) (h : k2 ≠ k) :
    tmapFind (tmapAdd m k v) k2 = tmapFind m k2 := by
  have hkk : ¬ (k = k2) := fun h2 => h (Eq.symm h2)
  induction m with
  | nil => simp [tmapAdd, tmapFind, hkk]
  | cons p rest ih =>
      obtain ⟨k0, v0⟩ := p
      by_cases hk : k0 = k
      · subst hk
        simp [tmapAdd, tmapFind, hkk]
      · simp only [tmapAdd, if_neg hk]
        by_cases hk2 : k0 = k2
        · simp [tmapFind, hk2]
        · simp [tmapFind, hk2, ih]

theorem mem_addUnique (l : List Nat) (a : Nat) : a ∈ addUnique l a := by
  unfold addUnique
  split
  · assumption
  · exact List.mem_cons_self a l

theorem addUnique_not_mem (l : List Nat) (a : Nat) (h : a ∉ l) :
    addUnique l a = a :: l := by
  simp [addUnique, h]

theorem addUnique_mem (l : List Nat) (a : Nat) (h : a ∈ l) :
    addUnique l a = l := by
  simp [addUnique, h]

theorem popValid_mem (s : SysState) :
    ∀ l b, b ∈ (popValid s l).2 → b ∈ l := by
  intro l
  induction l with
  | nil => intro b hb; simp [popValid] at hb
  | cons a rest ih =>
      intro b hb
      by_cases hv : s.validActors a = true
      · simp only [popValid, if_pos hv] at hb
        exact List.mem_cons_of_mem a hb
      · simp only [popValid, if_neg hv] at hb
        exact List.mem_cons_of_mem a (ih b hb)

theorem popValid_dropped (s : SysState) :
    ∀ l b, b ∈ l → b ∉ (popValid s l).2 →
      (popValid s l).1 = some b ∨ s.validActors b = false := by
  intro l
  induction l with
  | nil => intro b hb; simp at hb
  | cons a rest ih =>
      intro b hb hnb
      by_cases hv : s.validActors a = true
      · simp only [popValid, if_pos hv] at hnb ⊢
        rcases List.mem_cons.mp hb with hba | hbr
        · exact Or.inl (by rw [hba])
        · exact absurd hbr hnb
      · simp only [popValid, if_neg hv] at hnb ⊢
        rcases List.mem_cons.mp hb with hba | hbr
        · subst hba
          exact Or.inr (by revert hv; cases s.validActors b <;> simp)
        · exact ih b hbr hnb

theorem popValid_valid (s : SysState) :
    ∀ l a, (popValid s l).1 = some a → s.validActors a = true ∧ a ∈ l := by
  intro l
  induction l with
  | nil => intro a ha; simp [popValid] at ha
  | cons b rest ih =>
      intro a ha
      by_cases hv : s.validActors b = true
      · simp only [popValid, if_pos hv, Option.some.injEq] at ha
        subst ha
        exact ⟨hv, List.mem_cons_self b rest⟩
      · simp only [popValid, if_neg hv] at ha
        obtain ⟨h1, h2⟩ := ih a ha
        exact ⟨h1, List.mem_cons_of_mem b h2⟩

theorem popValid_all_invalid (s : SysState) :
    ∀ l, (∀ b ∈ l, s.validActors b = false) → popValid s l = (none, []) := by
  intro l
  induction l with
  | nil => intro _; rfl
  | cons a rest ih =>
      intro h
      have ha := h a (List.mem_cons_self a rest)
      simp [popValid, ha, ih (fun b hb => h b (List.mem_cons_of_mem a hb))]

theorem popValid_cons_valid (s : SysState) (a : Nat) (rest : List Nat)
    (h : s.validActors a = true) : popValid s (a :: rest) = (some a, rest) := by
  simp [popValid, h]

/-! ### Frame lemmas: which fields each primitive leaves unchanged -/

@[simp] theorem SetActorActive_objectPools (s : SysState) (a : Nat) (b : Bool) :
    (SetActorActive s a b).objectPools = s.objectPools := by
  unfold SetActorActive; split <;> rfl

@[simp] theorem SetActorActive_actorToClassMap (s : SysState) (a : Nat) (b : Bool) :
    (SetActorActive s a b).actorToClassMap = s.actorToClassMap := by
  unfold SetActorActive; split <;> rfl

@[simp] theorem SetActorActive_validActors (s : SysState) (a : Nat) (b : Bool) :
    (SetActorActive s a b).validActors = s.validActors := by
  unfold SetActorActive; split <;> rfl

@[simp] theorem SetActorActive_hasWorld (s : SysState) (a : Nat) (b : Bool) :
    (SetActorActive s a b).hasWorld = s.hasWorld := by
  unfold SetActorActive; split <;> rfl

@[simp] theorem SetActorActive_spawnCount (s : SysState) (a : Nat) (b : Bool) :
    (SetActorActive s a b).spawnCount = s.spawnCount := by
  unfold SetActorActive; split <;> rfl

@[simp] theorem SetActorActive_nextId (s : SysState) (a : Nat) (b : Bool) :
    (SetActorActive s a b).nextId = s.nextId := by
  unfold SetActorActive; split <;> rfl

@[simp] theorem SetActorActive_warnings (s : SysState) (a : Nat) (b : Bool) :
    (SetActorActive s a b).warnings = s.warnings := by
  unfold SetActorActive; split <;> rfl

@[simp] theorem SetActorActive_poolRoots (s : SysState) (a : Nat) (b : Bool) :
    (SetActorActive s a b).poolRoots = s.poolRoots := by
  unfold SetActorActive; split <;> rfl

@[simp] theorem SetActorActive_mainPoolRoot (s : SysState) (a : Nat) (b : Bool) :
    (SetActorActive s a b).mainPoolRoot = s.mainPoolRoot := by
  unfold SetActorActive; split <;> rfl

@[simp] theorem setLocRot_objectPools (s : SysState) (a : Nat) (l r : V3) :
    (setLocRot s a l r).objectPools = s.objectPools := rfl

@[simp] theorem setLocRot_actorToClassMap (s : SysState) (a : Nat) (l r : V3) :
    (setLocRot s a l r).actorToClassMap = s.actorToClassMap := rfl

@[simp] theorem setLocRot_validActors (s : SysState) (a : Nat) (l r : V3) :
    (setLocRot s a l r).validActors = s.validActors := rfl

@[simp] theorem setLocRot_hasWorld (s : SysState) (a : Nat) (l r : V3) :
    (setLocRot s a l r).hasWorld = s.hasWorld := rfl

@[simp] theorem setLocRot_spawnCount (s : SysState) (a : Nat) (l r : V3) :
    (setLocRot s a l r).spawnCount = s.spawnCount := rfl

@[simp] theorem setLocRot_nextId (s : SysState) (a : Nat) (l r : V3) :
    (setLocRot s a l r).nextId = s.nextId := rfl

@[simp] theorem setLocRot_warnings (s : SysState) (a : Nat) (l r : V3) :
    (setLocRot s a l r).warnings = s.warnings := rfl

@[simp] theorem setLocRot_poolRoots (s : SysState) (a : Nat) (l r : V3) :
    (setLocRot s a l r).poolRoots = s.poolRoots := rfl

@[simp] theorem setLocRot_mainPoolRoot (s : SysState) (a : Nat) (l r : V3) :
    (setLocRot s a l r).mainPoolRoot = s.mainPoolRoot := rfl

@[simp] theorem attachTo_objectPools (s : SysState) (c : Nat) (p : Option Nat) :
    (attachTo s c p).objectPools = s.objectPools := rfl

@[simp] theorem attachTo_actorToClassMap (s : SysState) (c : Nat) (p : Option Nat) :
    (attachTo s c p).actorToClassMap = s.actorToClassMap := rfl

@[simp] theorem attachTo_validActors (s : SysState) (c : Nat) (p : Option Nat) :
    (attachTo s c p).validActors = s.validActors := rfl

@[simp] theorem attachTo_actorFlags (s : SysState) (c : Nat) (p : Option Nat) :
    (attachTo s c p).actorFlags = s.actorFlags := rfl

@[simp] theorem attachTo_hasWorld (s : SysState) (c : Nat) (p : Option Nat) :
    (attachTo s c p).hasWorld = s.hasWorld := rfl

@[simp] theorem attachTo_spawnCount (s : SysState) (c : Nat) (p : Option Nat) :
    (attachTo s c p).spawnCount = s.spawnCount := rfl

@[simp] theorem attachTo_nextId (s : SysState) (c : Nat) (p : Option Nat) :
    (attachTo s c p).nextId = s.nextId := rfl

@[simp] theorem attachTo_warnings (s : SysState) (c : Nat) (p : Option Nat) :
    (attachTo s c p).warnings = s.warnings := rfl

@[simp] theorem attachTo_poolRoots (s : SysState) (c : Nat) (p : Option Nat) :
    (attachTo s c p).poolRoots = s.poolRoots := rfl

@[simp] theorem attachTo_mainPoolRoot (s : SysState) (c : Nat) (p : Option Nat) :
    (attachTo s c p).mainPoolRoot = s.mainPoolRoot := rfl

@[simp] theorem destroyActorHost_objectPools (s : SysState) (a : Nat) :
    (destroyActorHost s a).objectPools = s.objectPools := rfl

@[simp] theorem destroyActorHost_actorToClassMap (s : SysState) (a : Nat) :
    (destroyActorHost s a).actorToClassMap = s.actorToClassMap := rfl

@[simp] theorem destroyActorHost_warnings (s : SysState) (a : Nat) :
    (destroyActorHost s a).warnings = s.warnings := rfl

@[simp] theorem destroyActorHost_poolRoots (s : SysState) (a : Nat) :
    (destroyActorHost s a).poolRoots = s.poolRoots := rfl

@[simp] theorem destroyActorHost_mainPoolRoot (s : SysState) (a : Nat) :
    (destroyActorHost s a).mainPoolRoot = s.mainPoolRoot := rfl

@[simp] theorem destroyActorHost_hasWorld (s : SysState) (a : Nat) :
    (destroyActorHost s a).hasWorld = s.hasWorld := rfl

theorem destroyActorHost_validActors (s : SysState) (a n : Nat) :
    (destroyActorHost s a).validActors n
      = if n = a then false else s.validActors n := rfl

@[simp] theorem spawnActorHost_objectPools (s : SysState) (l r : V3) :
    (spawnActorHost s l r).2.objectPools = s.objectPools := by
  unfold spawnActorHost; split <;> rfl

@[simp] theorem spawnActorHost_actorToClassMap (s : SysState) (l r : V3) :
    (spawnActorHost s l r).2.actorToClassMap = s.actorToClassMap := by
  unfold spawnActorHost; split <;> rfl

@[simp] theorem spawnActorHost_warnings (s : SysState) (l r : V3) :
    (spawnActorHost s l r).2.warnings = s.warnings := by
  unfold spawnActorHost; split <;> rfl

@[simp] theorem spawnActorHost_poolRoots (s : SysState) (l r : V3) :
    (spawnActorHost s l r).2.poolRoots = s.poolRoots := by
  unfold spawnActorHost; split <;> rfl

@[simp] theorem spawnActorHost_mainPoolRoot (s : SysState) (l r : V3) :
    (spawnActorHost s l r).2.mainPoolRoot = s.mainPoolRoot := by
  unfold spawnActorHost; split <;> rfl

@[simp] theorem spawnActorHost_hasWorld (s : SysState) (l r : V3) :
    (spawnActorHost s l r).2.hasWorld = s.hasWorld := by
  unfold spawnActorHost; split <;> rfl

theorem spawnActorHost_valid_mono (s : SysState) (l r : V3) (a : Nat)
    (h : s.validActors a = true) :
    (spawnActorHost s l r).2.validActors a = true := by
  by_cases ho : s.spawnOracle s.spawnCount = true <;>
    simp [spawnActorHost, ho, h]

theorem spawnActorHost_valid_result (s : SysState) (l r : V3) (a : Nat)
    (h : (spawnActorHost s l r).1 = some a) :
    (spawnActorHost s l r).2.validActors a = true := by
  by_cases ho : s.spawnOracle s.spawnCount = true
  · simp [spawnActorHost, ho] at h ⊢
    simp [h]
  · simp [spawnActorHost, ho] at h

theorem mkNewRoot_objectPools (s : SysState) (pt : EPoolType) :
    (mkNewRoot s pt).2.objectPools = s.objectPools := by
  simp only [mkNewRoot]
  cases hr : (spawnActorHost s (0, 0, 0) (0, 0, 0)).1 <;>
    simp only [hr] <;> exact spawnActorHost_objectPools s _ _

theorem mkNewRoot_actorToClassMap (s : SysState) (pt : EPoolType) :
    (mkNewRoot s pt).2.actorToClassMap = s.actorToClassMap := by
  simp only [mkNewRoot]
  cases hr : (spawnActorHost s (0, 0, 0) (0, 0, 0)).1 <;>
    simp only [hr] <;> exact spawnActorHost_actorToClassMap s _ _

theorem mkNewRoot_warnings (s : SysState) (pt : EPoolType) :
    (mkNewRoot s pt).2.warnings = s.warnings := by
  simp only [mkNewRoot]
  cases hr : (spawnActorHost s (0, 0, 0) (0, 0, 0)).1 <;>
    simp only [hr] <;> exact spawnActorHost_warnings s _ _

theorem mkNewRoot_valid_mono (s : SysState) (pt : EPoolType) (a : Nat)
    (h : s.validActors a = true) :
    (mkNewRoot s pt).2.validActors a = true := by
  simp only [mkNewRoot]
  have h2 := spawnActorHost_valid_mono s (0, 0, 0) (0, 0, 0) a h
  cases hr : (spawnActorHost s (0, 0, 0) (0, 0, 0)).1 <;>
    simp only [hr] <;> exact h2

theorem ensureMainRoot_objectPools (s : SysState) :
    (ensureMainRoot s).objectPools = s.objectPools := by
  unfold ensureMainRoot
  split <;> simp

theorem ensureMainRoot_actorToClassMap (s : SysState) :
    (ensureMainRoot s).actorToClassMap = s.actorToClassMap := by
  unfold ensureMainRoot
  split <;> simp

theorem ensureMainRoot_warnings (s : SysState) :
    (ensureMainRoot s).warnings = s.warnings := by
  unfold ensureMainRoot
  split <;> simp

theorem ensureMainRoot_valid_mono (s : SysState) (a : Nat)
    (h : s.validActors a = true) :
    (ensureMainRoot s).validActors a = true := by
  unfold ensureMainRoot
  split
  · exact h
  · simpa using spawnActorHost_valid_mono s (0, 0, 0) (0, 0, 0) a h

theorem rootFromCache_objectPools (s : SysState) (pt : EPoolType) :
    (rootFromCache s pt).2.objectPools = s.objectPools := by
  simp only [rootFromCache]
  cases hf : tmapFind s.poolRoots pt with
  | none => simp only [hf]; exact mkNewRoot_objectPools s pt
  | some r =>
      simp only [hf]
      by_cases hv : s.validActors r = true
      · rw [if_pos hv]
      · rw [if_neg hv]; exact mkNewRoot_objectPools s pt

theorem rootFromCache_actorToClassMap (s : SysState) (pt : EPoolType) :
    (rootFromCache s pt).2.actorToClassMap = s.actorToClassMap := by
  simp only [rootFromCache]
  cases hf : tmapFind s.poolRoots pt with
  | none => simp only [hf]; exact mkNewRoot_actorToClassMap s pt
  | some r =>
      simp only [hf]
      by_cases hv : s.validActors r = true
      · rw [if_pos hv]
      · rw [if_neg hv]; exact mkNewRoot_actorToClassMap s pt

theorem rootFromCache_warnings (s : SysState) (pt : EPoolType) :
    (rootFromCache s pt).2.warnings = s.warnings := by
  simp only [rootFromCache]
  cases hf : tmapFind s.poolRoots pt with
  | none => simp only [hf]; exact mkNewRoot_warnings s pt
  | some r =>
      simp only [hf]
      by_cases hv : s.validActors r = true
      · rw [if_pos hv]
      · rw [if_neg hv]; exact mkNewRoot_warnings s pt

theorem rootFromCache_valid_mono (s : SysState) (pt : EPoolType) (a : Nat)
    (h : s.validActors a = true) :
    (rootFromCache s pt).2.validActors a = true := by
  simp only [rootFromCache]
  cases hf : tmapFind s.poolRoots pt with
  | none => simp only [hf]; exact mkNewRoot_valid_mono s pt a h
  | some r =>
      simp only [hf]
      by_cases hv : s.validActors r = true
      · rw [if_pos hv]; exact h
      · rw [if_neg hv]; exact mkNewRoot_valid_mono s pt a h

theorem GetOrCreatePoolRoot_objectPools (s : SysState) (pt : EPoolType) :
    (GetOrCreatePoolRoot s pt).2.objectPools = s.objectPools := by
  unfold GetOrCreatePoolRoot
  split
  · rw [rootFromCache_objectPools, ensureMainRoot_objectPools]
  · rfl

theorem GetOrCreatePoolRoot_actorToClassMap (s : SysState) (pt : EPoolType) :
    (GetOrCreatePoolRoot s pt).2.actorToClassMap = s.actorToClassMap := by
  unfold GetOrCreatePoolRoot
  split
  · rw [rootFromCache_actorToClassMap, ensureMainRoot_actorToClassMap]
  · rfl

theorem GetOrCreatePoolRoot_warnings (s : SysState) (pt : EPoolType) :
    (GetOrCreatePoolRoot s pt).2.warnings = s.warnings := by
  unfold GetOrCreatePoolRoot
  split
  · rw [rootFromCache_warnings, ensureMainRoot_warnings]
  · rfl

theorem GetOrCreatePoolRoot_valid_mono (s : SysState) (pt : EPoolType) (a : Nat)
    (h : s.validActors a = true) :
    (GetOrCreatePoolRoot s pt).2.validActors a = true := by
  unfold GetOrCreatePoolRoot
  split
  · exact rootFromCache_valid_mono _ pt a (ensureMainRoot_valid_mono s a h)
  · exact h

/-! ### Path characterizations of the façade operations -/

theorem SpawnObject_take (s : SysState) (cls : Nat) (loc rot : V3)
    (pt : EPoolType) (a : Nat) (rest : List Nat) (hW : s.hasWorld = true)
    (hpop : popValid s ((tmapFind s.objectPools cls).getD []) = (some a, rest)) :
    SpawnObject s (some cls) loc rot pt =
      (some a,
        SetActorActive
          (setLocRot { s with objectPools := tmapAdd s.objectPools cls rest }
            a loc rot)
          a true) := by
  simp only [SpawnObject, hW, hpop, eq_self_iff_true, if_true]

theorem ReturnObjectToPool_pool (s : SysState) (x c : Nat)
    (hv : s.validActors x = true)
    (hm : tmapFind s.actorToClassMap x = some c) :
    ReturnObjectToPool s x =
      { SetActorActive s x false with
          objectPools :=
            tmapAdd s.objectPools c
              (addUnique ((tmapFind s.objectPools c).getD []) x) } := by
  simp only [ReturnObjectToPool, hv, hm, SetActorActive_objectPools,
    SetActorActive_actorToClassMap, eq_self_iff_true, if_true]

theorem ReturnObjectToPool_foreign (s : SysState) (x : Nat)
    (hv : s.validActors x = true)
    (hm : tmapFind s.actorToClassMap x = none) :
    ReturnObjectToPool s x =
      destroyActorHost { s with warnings := s.warnings + 1 } x := by
  simp only [ReturnObjectToPool, hv, hm, eq_self_iff_true, if_true]

theorem ReturnObjectToPool_invalid (s : SysState) (x : Nat)
    (hv : s.validActors x = false) :
    ReturnObjectToPool s x = s := by
  simp only [ReturnObjectToPool, hv, Bool.false_eq_true, if_false]

theorem SpawnObject_new_fail (s : SysState) (cls : Nat) (loc rot : V3)
    (pt : EPoolType) (rest : List Nat) (hW : s.hasWorld = true)
    (hpop : popValid s ((tmapFind s.objectPools cls).getD []) = (none, rest))
    (hor : s.spawnOracle s.spawnCount = false) :
    SpawnObject s (some cls) loc rot pt =
      (none,
        { s with
            objectPools := tmapAdd s.objectPools cls rest
            spawnCount := s.spawnCount + 1 }) := by
  simp only [SpawnObject, spawnActorHost, hW, hpop, hor, eq_self_iff_true,
    if_true, Bool.false_eq_true, if_false]

theorem SpawnObject_new_succ (s : SysState) (cls : Nat) (loc rot : V3)
    (pt : EPoolType) (rest : List Nat) (hW : s.hasWorld = true)
    (hpop : popValid s ((tmapFind s.objectPools cls).getD []) = (none, rest))
    (hor : s.spawnOracle s.spawnCount = true) :
    SpawnObject s (some cls) loc rot pt =
      (some s.nextId,
        SetActorActive
          (setLocRot
            (attachTo
              (GetOrCreatePoolRoot
                { s with
                    objectPools := tmapAdd s.objectPools cls rest
                    nextId := s.nextId + 1
                    spawnCount := s.spawnCount + 1
                    validActors := fun n =>
                      if n = s.nextId then true else s.validActors n
                    actorFlags := fun n =>
                      if n = s.nextId then
                        { hiddenInGame := false, collisionEnabled := true,
                          tickEnabled := true,
                          components := List.replicate (s.compOf s.nextId) false,
                          loc := loc, rot := rot }
                      else s.actorFlags n
                    actorToClassMap := tmapAdd s.actorToClassMap s.nextId cls }
                pt).2
              s.nextId
              (GetOrCreatePoolRoot
                { s with
                    objectPools := tmapAdd s.objectPools cls rest
                    nextId := s.nextId + 1
                    spawnCount := s.spawnCount + 1
                    validActors := fun n =>
                      if n = s.nextId then true else s.validActors n
                    actorFlags := fun n =>
                      if n = s.nextId then
                        { hiddenInGame := false, collisionEnabled := true,
                          tickEnabled := true,
                          components := List.replicate (s.compOf s.nextId) false,
                          loc := loc, rot := rot }
                      else s.actorFlags n
                    actorToClassMap := tmapAdd s.actorToClassMap s.nextId cls }
                pt).1)
            s.nextId loc rot)
          s.nextId true) := by
  simp only [SpawnObject, spawnActorHost, hW, hpop, hor, eq_self_iff_true, if_true]

/-! ### Claim theorems -/

/-- C3: after releasing an instance `x` that was acquired for type `c`
(so `x` is valid, recorded for `c`, and not sitting in `c`'s pool), the
next acquire for `c` returns `x` itself — the free list is a stack, and
no new instance is constructed (the host's spawn counter and id counter
are untouched). -/
theorem C3_reuse_lifo (s : SysState) (x c : Nat) (loc rot : V3)
    (pt : EPoolType)
    (hW : s.hasWorld = true)
    (hv : s.validActors x = true)
    (hm : tmapFind s.actorToClassMap x = some c)
    (hnp : x ∉ (tmapFind s.objectPools c).getD []) :
    (SpawnObject (ReturnObjectToPool s x) (some c) loc rot pt).1 = some x
    ∧ (SpawnObject (ReturnObjectToPool s x) (some c) loc rot pt).2.spawnCount
        = s.spawnCount
    ∧ (SpawnObject (ReturnObjectToPool s x) (some c) loc rot pt).2.nextId
        = s.nextId := by
  have hret := ReturnObjectToPool_pool s x c hv hm
  have hW1 : (ReturnObjectToPool s x).hasWorld = true := by
    rw [hret]; simpa using hW
  have hv1 : (ReturnObjectToPool s x).validActors x = true := by
    rw [hret]; simpa using hv
  have hpool : (tmapFind (ReturnObjectToPool s x).objectPools c).getD []
      = x :: (tmapFind s.objectPools c).getD [] := by
    rw [hret]
    show (tmapFind
      (tmapAdd s.objectPools c
        (addUnique ((tmapFind s.objectPools c).getD []) x)) c).getD []
      = x :: (tmapFind s.objectPools c).getD []
    rw [tmapFind_tmapAdd_self, addUnique_not_mem _ _ hnp]
    rfl
  have hpop : popValid (ReturnObjectToPool s x)
      ((tmapFind (ReturnObjectToPool s x).objectPools c).getD [])
      = (some x, (tmapFind s.objectPools c).getD []) := by
    rw [hpool]
    exact popValid_cons_valid _ x _ hv1
  rw [SpawnObject_take _ c loc rot pt x _ hW1 hpop]
  refine ⟨rfl, ?_, ?_⟩
  · simp only [SetActorActive_spawnCount, setLocRot_spawnCount]
    rw [hret]
    simp
  · simp only [SetActorActive_nextId, setLocRot_nextId]
    rw [hret]
    simp

/-- C3 witness: concrete instantiation at `mappedState` with actor 0 of
class 4. -/
theorem C3_reuse_lifo_witness :
    (SpawnObject (ReturnObjectToPool mappedState 0) (some 4) (1, 2, 3)
        (0, 0, 0) EPoolType.Nodes).1 = some 0
    ∧ (SpawnObject (ReturnObjectToPool mappedState 0) (some 4) (1, 2, 3)
        (0, 0, 0) EPoolType.Nodes).2.spawnCount = mappedState.spawnCount
    ∧ (SpawnObject (ReturnObjectToPool mappedState 0) (some 4) (1, 2, 3)
        (0, 0, 0) EPoolType.Nodes).2.nextId = mappedState.nextId :=
  C3_reuse_lifo mappedState 0 4 (1, 2, 3) (0, 0, 0) EPoolType.Nodes
    (by decide) (by decide) (by decide) (by decide)

/-- C5: releasing `x` twice in succession (starting from a state where the
checked-out `x` is valid, recorded for `c`, and not in `c`'s pool) leaves
exactly one entry for `x` in `c`'s pool: the insert is an idempotent
set-add. -/
theorem C5_double_release (s : SysState) (x c : Nat)
    (hv : s.validActors x = true)
    (hm : tmapFind s.actorToClassMap x = some c)
    (hnp : x ∉ (tmapFind s.objectPools c).getD []) :
    ((tmapFind (ReturnObjectToPool (ReturnObjectToPool s x) x).objectPools
        c).getD []).count x = 1 := by
  have hret := ReturnObjectToPool_pool s x c hv hm
  have hv1 : (ReturnObjectToPool s x).validActors x = true := by
    rw [hret]; simpa using hv
  have hm1 : tmapFind (ReturnObjectToPool s x).actorToClassMap x = some c := by
    rw [hret]
    show tmapFind (SetActorActive s x false).actorToClassMap x = some c
    rw [SetActorActive_actorToClassMap]
    exact hm
  have hpool : (tmapFind (ReturnObjectToPool s x).objectPools c).getD []
      = x :: (tmapFind s.objectPools c).getD [] := by
    rw [hret]
    show (tmapFind
      (tmapAdd s.objectPools c
        (addUnique ((tmapFind s.objectPools c).getD []) x)) c).getD []
      = x :: (tmapFind s.objectPools c).getD []
    rw [tmapFind_tmapAdd_self, addUnique_not_mem _ _ hnp]
    rfl
  have hret2 := ReturnObjectToPool_pool (ReturnObjectToPool s x) x c hv1 hm1
  rw [hret2]
  show ((tmapFind
    (tmapAdd (ReturnObjectToPool s x).objectPools c
      (addUnique
        ((tmapFind (ReturnObjectToPool s x).objectPools c).getD []) x))
      c).getD []).count x = 1
  rw [tmapFind_tmapAdd_self, hpool,
    addUnique_mem _ _ (List.mem_cons_self x _)]
  simp [List.count_cons_self, List.count_eq_zero.mpr hnp]

/-- C5 witness: concrete instantiation at `mappedState` with actor 0 of
class 4. -/
theorem C5_double_release_witness :
    ((tmapFind (ReturnObjectToPool (ReturnObjectToPool mappedState 0)
        0).objectPools 4).getD []).count 0 = 1 :=
  C5_double_release mappedState 0 4 (by decide) (by decide) (by decide)

/-- C6: releasing a valid instance `x` recorded for type `c` inserts `x`
into `c`'s pool and leaves every other type's pool untouched, and never
changes the ownership index; and an acquire never overwrites an existing
ownership association (the only index write is for the freshly allocated
id). -/
theorem C6_type_fidelity (s : SysState) (x c : Nat) (cls : Option Nat)
    (loc rot : V3) (pt : EPoolType)
    (hv : s.validActors x = true)
    (hm : tmapFind s.actorToClassMap x = some c)
    (hfresh : tmapFind s.actorToClassMap s.nextId = none) :
    x ∈ (tmapFind (ReturnObjectToPool s x).objectPools c).getD []
    ∧ (∀ c2, c2 ≠ c →
        tmapFind (ReturnObjectToPool s x).objectPools c2
          = tmapFind s.objectPools c2)
    ∧ (ReturnObjectToPool s x).actorToClassMap = s.actorToClassMap
    ∧ (∀ y c0, tmapFind s.actorToClassMap y = some c0 →
        tmapFind (SpawnObject s cls loc rot pt).2.actorToClassMap y
          = some c0) := by
  have hret := ReturnObjectToPool_pool s x c hv hm
  refine ⟨?_, ?_, ?_, ?_⟩
  · rw [hret]
    show x ∈ (tmapFind
      (tmapAdd s.objectPools c
        (addUnique ((tmapFind s.objectPools c).getD []) x)) c).getD []
    rw [tmapFind_tmapAdd_self]
    exact mem_addUnique _ x
  · intro c2 hc2
    rw [hret]
    show tmapFind
      (tmapAdd s.objectPools c
        (addUnique ((tmapFind s.objectPools c).getD []) x)) c2
      = tmapFind s.objectPools c2
    exact tmapFind_tmapAdd_ne _ _ _ _ hc2
  · rw [hret]
    show (SetActorActive s x false).actorToClassMap = s.actorToClassMap
    exact SetActorActive_actorToClassMap s x false
  · intro y c0 hy
    cases cls with
    | none => simpa [SpawnObject] using hy
    | some cl =>
        by_cases hW : s.hasWorld = true
        · cases hp : popValid s ((tmapFind s.objectPools cl).getD []) with
          | mk o rest =>
            cases o with
            | some a =>
                rw [SpawnObject_take s cl loc rot pt a rest hW hp]
                simp only [SetActorActive_actorToClassMap,
                  setLocRot_actorToClassMap]
                exact hy
            | none =>
                by_cases hor : s.spawnOracle s.spawnCount = true
                · rw [SpawnObject_new_succ s cl loc rot pt rest hW hp hor]
                  simp only [SetActorActive_actorToClassMap,
                    setLocRot_actorToClassMap, attachTo_actorToClassMap,
                    GetOrCreatePoolRoot_actorToClassMap]
                  show tmapFind (tmapAdd s.actorToClassMap s.nextId cl) y
                    = some c0
                  have hyne : y ≠ s.nextId := by
                    intro he
                    rw [he, hfresh] at hy
                    exact Option.noConfusion hy
                  rw [tmapFind_tmapAdd_ne _ _ _ _ hyne]
                  exact hy
                · have hor2 : s.spawnOracle s.spawnCount = false := by
                    revert hor; cases s.spawnOracle s.spawnCount <;> simp
                  rw [SpawnObject_new_fail s cl loc rot pt rest hW hp hor2]
                  exact hy
        · have hW2 : s.hasWorld = false := by
            revert hW; cases s.hasWorld <;> simp
          simp only [SpawnObject, hW2, Bool.false_eq_true, if_false]
          exact hy

/-- C6 witness: concrete instantiation at `mappedState` (actor 0 of class
4; a release routes to pool 4 only, and a fresh acquire for class 7
preserves actor 0's association). -/
theorem C6_type_fidelity_witness :
    0 ∈ (tmapFind (ReturnObjectToPool mappedState 0).objectPools 4).getD []
    ∧ tmapFind (ReturnObjectToPool mappedState 0).objectPools 7
        = tmapFind mappedState.objectPools 7
    ∧ (ReturnObjectToPool mappedState 0).actorToClassMap
        = mappedState.actorToClassMap
    ∧ tmapFind (SpawnObject mappedState (some 7) (0, 0, 0) (0, 0, 0)
        EPoolType.Nodes).2.actorToClassMap 0 = some 4 := by
  obtain ⟨h1, h2, h3, h4⟩ := C6_type_fidelity mappedState 0 4 (some 7)
    (0, 0, 0) (0, 0, 0) EPoolType.Nodes (by decide) (by decide) (by decide)
  exact ⟨h1, h2 7 (by decide), h3, h4 0 4 (by decide)⟩

/-- C7: releasing a valid instance the system never recorded emits a
warning and destroys it, and the instance is in no pool afterwards (using
the invariant that pools only hold recorded instances); releasing an
invalid instance is a no-op. -/
theorem C7_foreign_release (s : SysState) (x y : Nat)
    (hv : s.validActors x = true)
    (hm : tmapFind s.actorToClassMap x = none)
    (hinv : PoolsOwned s)
    (hy : s.validActors y = false) :
    (ReturnObjectToPool s x).warnings = s.warnings + 1
    ∧ (ReturnObjectToPool s x).validActors x = false
    ∧ (∀ p ∈ (ReturnObjectToPool s x).objectPools, x ∉ p.2)
    ∧ ReturnObjectToPool s y = s := by
  have hret := ReturnObjectToPool_foreign s x hv hm
  refine ⟨?_, ?_, ?_, ReturnObjectToPool_invalid s y hy⟩
  · rw [hret, destroyActorHost_warnings]
  · rw [hret, destroyActorHost_validActors]
    simp
  · intro p hp hx
    rw [hret, destroyActorHost_objectPools] at hp
    have hp2 : p ∈ s.objectPools := hp
    have hsome := hinv p hp2 x hx
    rw [hm] at hsome
    simp at hsome

/-- C7 witness: concrete instantiation at `foreignState` (actor 5 valid
but unrecorded, actor 9 invalid). -/
theorem C7_foreign_release_witness :
    (ReturnObjectToPool foreignState 5).warnings
        = foreignState.warnings + 1
    ∧ (ReturnObjectToPool foreignState 5).validActors 5 = false
    ∧ ReturnObjectToPool foreignState 9 = foreignState := by
  obtain ⟨h1, h2, h3, h4⟩ := C7_foreign_release foreignState 5 9
    (by decide) (by decide)
    (by intro p hp; simp [PoolsOwned, foreignState, freshState] at hp)
    (by decide)
  exact ⟨h1, h2, h4⟩

theorem SetActorActive_flags_self (s : SysState) (a : Nat) (b : Bool)
    (hv : s.validActors a = true) :
    (SetActorActive s a b).actorFlags a =
      { hiddenInGame := !b, collisionEnabled := b, tickEnabled := b,
        components := (s.actorFlags a).components.map (fun _ => b),
        loc := (s.actorFlags a).loc, rot := (s.actorFlags a).rot } := by
  simp only [SetActorActive, hv, eq_self_iff_true, if_true]

/-- C4: whenever `SpawnObject` returns an instance, that instance is valid
in the resulting state; the surviving pool entries for the class all come
from the old pool (nothing is re-inserted), and an entry that disappeared
is either the instance handed out or was invalid (silently discarded). -/
theorem C4_stale_skip (s : SysState) (cls : Nat) (loc rot : V3)
    (pt : EPoolType) (a : Nat)
    (h : (SpawnObject s (some cls) loc rot pt).1 = some a) :
    (SpawnObject s (some cls) loc rot pt).2.validActors a = true
    ∧ (∀ b ∈ (tmapFind (SpawnObject s (some cls) loc rot pt).2.objectPools
          cls).getD [], b ∈ (tmapFind s.objectPools cls).getD [])
    ∧ (∀ b ∈ (tmapFind s.objectPools cls).getD [],
        b ∉ (tmapFind (SpawnObject s (some cls) loc rot pt).2.objectPools
          cls).getD [] →
        b = a ∨ s.validActors b = false) := by
  by_cases hW : s.hasWorld = true
  · cases hp : popValid s ((tmapFind s.objectPools cls).getD []) with
    | mk o rest =>
      have hrest : rest = (popValid s
          ((tmapFind s.objectPools cls).getD [])).2 := by rw [hp]
      cases o with
      | some a0 =>
          rw [SpawnObject_take s cls loc rot pt a0 rest hW hp] at h ⊢
          have ha : a0 = a := by simpa using h
          subst ha
          have hval := popValid_valid s ((tmapFind s.objectPools cls).getD [])
            a0 (by rw [hp])
          refine ⟨?_, ?_, ?_⟩
          · simp only [SetActorActive_validActors, setLocRot_validActors]
            exact hval.1
          · intro b hb
            simp only [SetActorActive_objectPools, setLocRot_objectPools] at hb
            have hb2 : b ∈ (tmapFind (tmapAdd s.objectPools cls rest)
                cls).getD [] := hb
            rw [tmapFind_tmapAdd_self] at hb2
            exact popValid_mem s _ b (hrest ▸ hb2)
          · intro b hb hnb
            simp only [SetActorActive_objectPools, setLocRot_objectPools] at hnb
            have hnb2 : b ∉ (tmapFind (tmapAdd s.objectPools cls rest)
                cls).getD [] := hnb
            rw [tmapFind_tmapAdd_self] at hnb2
            have := popValid_dropped s _ b hb (hrest ▸ hnb2)
            rcases this with hres | hinv
            · rw [hp] at hres
              simp at hres
              exact Or.inl hres.symm
            · exact Or.inr hinv
      | none =>
          by_cases hor : s.spawnOracle s.spawnCount = true
          · rw [SpawnObject_new_succ s cls loc rot pt rest hW hp hor] at h ⊢
            have ha : s.nextId = a := by simpa using h
            refine ⟨?_, ?_, ?_⟩
            · simp only [SetActorActive_validActors, setLocRot_validActors,
                attachTo_validActors]
              refine GetOrCreatePoolRoot_valid_mono _ pt a ?_
              show (fun n => if n = s.nextId then true
                else s.validActors n) a = true
              simp [← ha]
            · intro b hb
              simp only [SetActorActive_objectPools, setLocRot_objectPools,
                attachTo_objectPools, GetOrCreatePoolRoot_objectPools] at hb
              have hb2 : b ∈ (tmapFind (tmapAdd s.objectPools cls rest)
                  cls).getD [] := hb
              rw [tmapFind_tmapAdd_self] at hb2
              exact popValid_mem s _ b (hrest ▸ hb2)
            · intro b hb hnb
              simp only [SetActorActive_objectPools, setLocRot_objectPools,
                attachTo_objectPools, GetOrCreatePoolRoot_objectPools] at hnb
              have hnb2 : b ∉ (tmapFind (tmapAdd s.objectPools cls rest)
                  cls).getD [] := hnb
              rw [tmapFind_tmapAdd_self] at hnb2
              have := popValid_dropped s _ b hb (hrest ▸ hnb2)
              rcases this with hres | hinv
              · rw [hp] at hres
                simp at hres
              · exact Or.inr hinv
          · have hor2 : s.spawnOracle s.spawnCount = false := by
              revert hor; cases s.spawnOracle s.spawnCount <;> simp
            rw [SpawnObject_new_fail s cls loc rot pt rest hW hp hor2] at h
            simp at h
  · have hW2 : s.hasWorld = false := by
      revert hW; cases s.hasWorld <;> simp
    simp only [SpawnObject, hW2, Bool.false_eq_true, if_false] at h
    simp at h

/-- C4 witness: acquiring class 3 from `freshState` returns actor 0, which
is valid, and the (empty) pool facts hold. -/
theorem C4_stale_skip_witness :
    (SpawnObject freshState (some 3) (1, 2, 3) (0, 0, 0)
        EPoolType.Nodes).2.validActors 0 = true := by
  obtain ⟨h1, h2, h3⟩ := C4_stale_skip freshState 3 (1, 2, 3) (0, 0, 0)
    EPoolType.Nodes 0 (by decide)
  exact h1

theorem ActiveFlags_SetActorActive (u : SysState) (a : Nat)
    (hv : u.validActors a = true) :
    ActiveFlags ((SetActorActive u a true).actorFlags a) := by
  rw [SetActorActive_flags_self u a true hv]
  refine ⟨rfl, rfl, rfl, ?_⟩
  intro b hb
  simp only [List.mem_map] at hb
  obtain ⟨w, hw, hb2⟩ := hb
  exact hb2.symm

theorem InactiveFlags_SetActorActive (u : SysState) (a : Nat)
    (hv : u.validActors a = true) :
    InactiveFlags ((SetActorActive u a false).actorFlags a) := by
  rw [SetActorActive_flags_self u a false hv]
  refine ⟨rfl, rfl, rfl, ?_⟩
  intro b hb
  simp only [List.mem_map] at hb
  obtain ⟨w, hw, hb2⟩ := hb
  exact hb2.symm

/-- C9: immediately after a successful acquire the returned instance is
visible, collision-enabled, tick-enabled with all sub-components active;
immediately after releasing a recorded valid instance all four are
disabled. The flag write is the same for every class. -/
theorem C9_activation_invariant (s t : SysState) (cls : Nat) (loc rot : V3)
    (pt : EPoolType) (a x c : Nat)
    (h : (SpawnObject s (some cls) loc rot pt).1 = some a)
    (hv : t.validActors x = true)
    (hm : tmapFind t.actorToClassMap x = some c) :
    ActiveFlags ((SpawnObject s (some cls) loc rot pt).2.actorFlags a)
    ∧ InactiveFlags ((ReturnObjectToPool t x).actorFlags x) := by
  constructor
  · by_cases hW : s.hasWorld = true
    · cases hp : popValid s ((tmapFind s.objectPools cls).getD []) with
      | mk o rest =>
        cases o with
        | some a0 =>
            rw [SpawnObject_take s cls loc rot pt a0 rest hW hp] at h ⊢
            have ha : a0 = a := by simpa using h
            subst ha
            have hval := popValid_valid s
              ((tmapFind s.objectPools cls).getD []) a0 (by rw [hp])
            apply ActiveFlags_SetActorActive
            simp only [setLocRot_validActors]
            exact hval.1
        | none =>
            by_cases hor : s.spawnOracle s.spawnCount = true
            · rw [SpawnObject_new_succ s cls loc rot pt rest hW hp hor]
                at h ⊢
              have ha : s.nextId = a := by simpa using h
              subst ha
              apply ActiveFlags_SetActorActive
              simp only [setLocRot_validActors, attachTo_validActors]
              apply GetOrCreatePoolRoot_valid_mono
              simp
            · have hor2 : s.spawnOracle s.spawnCount = false := by
                revert hor; cases s.spawnOracle s.spawnCount <;> simp
              rw [SpawnObject_new_fail s cls loc rot pt rest hW hp hor2] at h
              simp at h
    · have hW2 : s.hasWorld = false := by
        revert hW; cases s.hasWorld <;> simp
      simp only [SpawnObject, hW2, Bool.false_eq_true, if_false] at h
      simp at h
  · rw [ReturnObjectToPool_pool t x c hv hm]
    show InactiveFlags ((SetActorActive t x false).actorFlags x)
    exact InactiveFlags_SetActorActive t x hv

/-- C9 witness: acquiring class 3 from `freshState` activates actor 0;
releasing actor 0 in `mappedState` deactivates it. -/
theorem C9_activation_invariant_witness :
    ActiveFlags ((SpawnObject freshState (some 3) (1, 2, 3) (0, 0, 0)
        EPoolType.Nodes).2.actorFlags 0)
    ∧ InactiveFlags ((ReturnObjectToPool mappedState 0).actorFlags 0) :=
  C9_activation_invariant freshState mappedState 3 (1, 2, 3) (0, 0, 0)
    EPoolType.Nodes 0 0 4 (by decide) (by decide) (by decide)

/-! ### Lemmas about teardown -/

theorem destroyPoolList_objectPools (l : List Nat) :
    ∀ s : SysState, (destroyPoolList s l).objectPools = s.objectPools := by
  induction l with
  | nil => intro s; rfl
  | cons a t ih =>
      intro s
      show (destroyPoolList
        (if s.validActors a = true then destroyActorHost s a else s)
        t).objectPools = s.objectPools
      rw [ih]
      split <;> rfl

theorem destroyPoolList_actorToClassMap (l : List Nat) :
    ∀ s : SysState,
      (destroyPoolList s l).actorToClassMap = s.actorToClassMap := by
  induction l with
  | nil => intro s; rfl
  | cons a t ih =>
      intro s
      show (destroyPoolList
        (if s.validActors a = true then destroyActorHost s a else s)
        t).actorToClassMap = s.actorToClassMap
      rw [ih]
      split <;> rfl

theorem destroyPoolList_poolRoots (l : List Nat) :
    ∀ s : SysState, (destroyPoolList s l).poolRoots = s.poolRoots := by
  induction l with
  | nil => intro s; rfl
  | cons a t ih =>
      intro s
      show (destroyPoolList
        (if s.validActors a = true then destroyActorHost s a else s)
        t).poolRoots = s.poolRoots
      rw [ih]
      split <;> rfl

theorem destroyPoolList_mainPoolRoot (l : List Nat) :
    ∀ s : SysState, (destroyPoolList s l).mainPoolRoot = s.mainPoolRoot := by
  induction l with
  | nil => intro s; rfl
  | cons a t ih =>
      intro s
      show (destroyPoolList
        (if s.validActors a = true then destroyActorHost s a else s)
        t).mainPoolRoot = s.mainPoolRoot
      rw [ih]
      split <;> rfl

theorem destroyPoolList_warnings (l : List Nat) :
    ∀ s : SysState, (destroyPoolList s l).warnings = s.warnings := by
  induction l with
  | nil => intro s; rfl
  | cons a t ih =>
      intro s
      show (destroyPoolList
        (if s.validActors a = true then destroyActorHost s a else s)
        t).warnings = s.warnings
      rw [ih]
      split <;> rfl

theorem destroyPoolList_valid_other (l : List Nat) :
    ∀ (s : SysState) (x : Nat), x ∉ l →
      (destroyPoolList s l).validActors x = s.validActors x := by
  induction l with
  | nil => intro s x _; rfl
  | cons a t ih =>
      intro s x hx
      have hxa : x ≠ a := fun h => hx (h ▸ List.mem_cons_self a t)
      have hxt : x ∉ t := fun h => hx (List.mem_cons_of_mem a h)
      show (destroyPoolList
        (if s.validActors a = true then destroyActorHost s a else s)
        t).validActors x = s.validActors x
      rw [ih _ x hxt]
      split
      · rw [destroyActorHost_validActors, if_neg hxa]
      · rfl

theorem destroyPoolList_valid_mono (l : List Nat) :
    ∀ (s : SysState) (a : Nat),
      (destroyPoolList s l).validActors a = true →
      s.validActors a = true := by
  induction l with
  | nil => intro s a h; exact h
  | cons b t ih =>
      intro s a h
      have h2 : (destroyPoolList
          (if s.validActors b = true then destroyActorHost s b else s)
          t).validActors a = true := h
      have h3 := ih _ a h2
      by_cases hb : s.validActors b = true
      · rw [if_pos hb, destroyActorHost_validActors] at h3
        by_cases hab : a = b
        · rw [if_pos hab] at h3
          exact absurd h3 (by simp)
        · rw [if_neg hab] at h3
          exact h3
      · rw [if_neg hb] at h3
        exact h3

theorem destroyPoolList_destroys (l : List Nat) :
    ∀ (s : SysState) (a : Nat), a ∈ l →
      (destroyPoolList s l).validActors a = false := by
  induction l with
  | nil => intro s a h; simp at h
  | cons b t ih =>
      intro s a h
      show (destroyPoolList
        (if s.validActors b = true then destroyActorHost s b else s)
        t).validActors a = false
      rcases List.mem_cons.mp h with hab | hat
      · subst hab
        have hstep : (if s.validActors a = true then destroyActorHost s a
            else s).validActors a = false := by
          split
          · rw [destroyActorHost_validActors]
            simp
          · next hnv => revert hnv; cases s.validActors a <;> simp
        cases hfin : (destroyPoolList
            (if s.validActors a = true then destroyActorHost s a else s)
            t).validActors a
        · rfl
        · have hmono := destroyPoolList_valid_mono t _ a hfin
          rw [hstep] at hmono
          simp at hmono
      · exact ih _ a hat

theorem foldPools_objectPools (pl : List (Nat × List Nat)) :
    ∀ st : SysState,
      (pl.foldl (fun st p => destroyPoolList st p.2) st).objectPools
        = st.objectPools := by
  induction pl with
  | nil => intro st; rfl
  | cons q ql ih =>
      intro st
      show (ql.foldl (fun st p => destroyPoolList st p.2)
        (destroyPoolList st q.2)).objectPools = st.objectPools
      rw [ih, destroyPoolList_objectPools]

theorem foldPools_actorToClassMap (pl : List (Nat × List Nat)) :
    ∀ st : SysState,
      (pl.foldl (fun st p => destroyPoolList st p.2) st).actorToClassMap
        = st.actorToClassMap := by
  induction pl with
  | nil => intro st; rfl
  | cons q ql ih =>
      intro st
      show (ql.foldl (fun st p => destroyPoolList st p.2)
        (destroyPoolList st q.2)).actorToClassMap = st.actorToClassMap
      rw [ih, destroyPoolList_actorToClassMap]

theorem foldPools_poolRoots (pl : List (Nat × List Nat)) :
    ∀ st : SysState,
      (pl.foldl (fun st p => destroyPoolList st p.2) st).poolRoots
        = st.poolRoots := by
  induction pl with
  | nil => intro st; rfl
  | cons q ql ih =>
      intro st
      show (ql.foldl (fun st p => destroyPoolList st p.2)
        (destroyPoolList st q.2)).poolRoots = st.poolRoots
      rw [ih, destroyPoolList_poolRoots]

theorem foldPools_mainPoolRoot (pl : List (Nat × List Nat)) :
    ∀ st : SysState,
      (pl.foldl (fun st p => destroyPoolList st p.2) st).mainPoolRoot
        = st.mainPoolRoot := by
  induction pl with
  | nil => intro st; rfl
  | cons q ql ih =>
      intro st
      show (ql.foldl (fun st p => destroyPoolList st p.2)
        (destroyPoolList st q.2)).mainPoolRoot = st.mainPoolRoot
      rw [ih, destroyPoolList_mainPoolRoot]

theorem foldPools_warnings (pl : List (Nat × List Nat)) :
    ∀ st : SysState,
      (pl.foldl (fun st p => destroyPoolList st p.2) st).warnings
        = st.warnings := by
  induction pl with
  | nil => intro st; rfl
  | cons q ql ih =>
      intro st
      show (ql.foldl (fun st p => destroyPoolList st p.2)
        (destroyPoolList st q.2)).warnings = st.warnings
      rw [ih, destroyPoolList_warnings]

theorem foldPools_valid_other (pl : List (Nat × List Nat)) :
    ∀ (st : SysState) (x : Nat), (∀ p ∈ pl, x ∉ p.2) →
      (pl.foldl (fun st p => destroyPoolList st p.2) st).validActors x
        = st.validActors x := by
  induction pl with
  | nil => intro st x _; rfl
  | cons q ql ih =>
      intro st x hx
      show (ql.foldl (fun st p => destroyPoolList st p.2)
        (destroyPoolList st q.2)).validActors x = st.validActors x
      rw [ih _ x (fun p hp => hx p (List.mem_cons_of_mem q hp)),
        destroyPoolList_valid_other _ _ x (hx q (List.mem_cons_self q ql))]

theorem foldPools_valid_mono (pl : List (Nat × List Nat)) :
    ∀ (st : SysState) (a : Nat),
      (pl.foldl (fun st p => destroyPoolList st p.2) st).validActors a
        = true → st.validActors a = true := by
  induction pl with
  | nil => intro st a h; exact h
  | cons q ql ih =>
      intro st a h
      have h2 : (ql.foldl (fun st p => destroyPoolList st p.2)
          (destroyPoolList st q.2)).validActors a = true := h
      exact destroyPoolList_valid_mono q.2 st a (ih _ a h2)

theorem foldPools_destroys (pl : List (Nat × List Nat)) :
    ∀ (st : SysState) (p : Nat × List Nat) (a : Nat), p ∈ pl → a ∈ p.2 →
      (pl.foldl (fun st p => destroyPoolList st p.2) st).validActors a
        = false := by
  induction pl with
  | nil => intro st p a hp _; simp at hp
  | cons q ql ih =>
      intro st p a hp ha
      show (ql.foldl (fun st p => destroyPoolList st p.2)
        (destroyPoolList st q.2)).validActors a = false
      rcases List.mem_cons.mp hp with hpq | hpl
      · subst hpq
        have hstep := destroyPoolList_destroys p.2 st a ha
        cases hfin : (ql.foldl (fun st p => destroyPoolList st p.2)
            (destroyPoolList st p.2)).validActors a
        · rfl
        · have hmono := foldPools_valid_mono ql _ a hfin
          rw [hstep] at hmono
          simp at hmono
      · exact ih _ p a hpl ha

theorem destroyMainRoot_objectPools (s : SysState) :
    (destroyMainRoot s).objectPools = s.objectPools := by
  cases hmr : s.mainPoolRoot with
  | none => simp only [destroyMainRoot, hmr]
  | some r =>
      simp only [destroyMainRoot, hmr]
      split <;> rfl

theorem destroyMainRoot_actorToClassMap (s : SysState) :
    (destroyMainRoot s).actorToClassMap = s.actorToClassMap := by
  cases hmr : s.mainPoolRoot with
  | none => simp only [destroyMainRoot, hmr]
  | some r =>
      simp only [destroyMainRoot, hmr]
      split <;> rfl

theorem destroyMainRoot_poolRoots (s : SysState) :
    (destroyMainRoot s).poolRoots = s.poolRoots := by
  cases hmr : s.mainPoolRoot with
  | none => simp only [destroyMainRoot, hmr]
  | some r =>
      simp only [destroyMainRoot, hmr]
      split <;> rfl

theorem destroyMainRoot_warnings (s : SysState) :
    (destroyMainRoot s).warnings = s.warnings := by
  cases hmr : s.mainPoolRoot with
  | none => simp only [destroyMainRoot, hmr]
  | some r =>
      simp only [destroyMainRoot, hmr]
      split <;> rfl

theorem destroyMainRoot_valid_other (s : SysState) (x : Nat)
    (hx : s.mainPoolRoot ≠ some x) :
    (destroyMainRoot s).validActors x = s.validActors x := by
  cases hmr : s.mainPoolRoot with
  | none => simp only [destroyMainRoot, hmr]
  | some r =>
      simp only [destroyMainRoot, hmr]
      split
      · have hxr : x ≠ r := by
          intro he
          rw [hmr, he] at hx
          exact hx rfl
        show (destroyActorHost s r).validActors x = s.validActors x
        rw [destroyActorHost_validActors, if_neg hxr]
      · rfl

theorem destroyMainRoot_valid_mono (s : SysState) (a : Nat)
    (h : (destroyMainRoot s).validActors a = true) :
    s.validActors a = true := by
  revert h
  cases hmr : s.mainPoolRoot with
  | none => simp only [destroyMainRoot, hmr]; exact fun h => h
  | some r =>
      simp only [destroyMainRoot, hmr]
      split
      · intro h
        have h2 : (destroyActorHost s r).validActors a = true := h
        rw [destroyActorHost_validActors] at h2
        by_cases har : a = r
        · rw [if_pos har] at h2
          exact absurd h2 (by simp)
        · rw [if_neg har] at h2
          exact h2
      · exact fun h => h

theorem destroyMainRoot_noValidRoot (s : SysState) :
    isValidOpt (destroyMainRoot s) (destroyMainRoot s).mainPoolRoot
      = false := by
  cases hmr : s.mainPoolRoot with
  | none => simp only [destroyMainRoot, hmr, isValidOpt]
  | some r =>
      simp only [destroyMainRoot, hmr]
      split
      · rfl
      · next hnv =>
          rw [hmr]
          show s.validActors r = false
          revert hnv
          cases s.validActors r <;> simp

/-- C8 counterexample: starting fresh, prewarming one actor of class 5
creates the category root with id 2 (recorded in `PoolRoots` for
`GameObjects`), and after `DeinitializePool` that category root actor is
still valid — it is not destroyed, contrary to the claim. -/
theorem C8_teardown_counterexample :
    tmapFind (InitializePool freshState (some 5) 1
        EPoolType.GameObjects).poolRoots EPoolType.GameObjects = some 2
    ∧ (DeinitializePool (InitializePool freshState (some 5) 1
        EPoolType.GameObjects)).validActors 2 = true :=
  ⟨by decide, by decide⟩

/-- C8 (amended): after `DeinitializePool`, every instance that sat in some
pool's inactive list is no longer valid, the three internal maps are
empty, and no valid overarching root remains (its map entries and, when
it was valid, its reference are cleared) — but the per-category root
actors themselves are not destroyed. -/
theorem C8_teardown_completeness (s : SysState) :
    (∀ p ∈ s.objectPools, ∀ a ∈ p.2,
        (DeinitializePool s).validActors a = false)
    ∧ (DeinitializePool s).objectPools = []
    ∧ (DeinitializePool s).actorToClassMap = []
    ∧ (DeinitializePool s).poolRoots = []
    ∧ isValidOpt (DeinitializePool s) (DeinitializePool s).mainPoolRoot = false := by
  refine ⟨?_, ?_, ?_, ?_, destroyMainRoot_noValidRoot _⟩
  · intro p hp a ha
    have hdest := foldPools_destroys s.objectPools s p a hp ha
    cases hfin : (DeinitializePool s).validActors a
    · rfl
    · have h1 := destroyMainRoot_valid_mono (clearMaps (destroyAllPools s))
        a hfin
      have h2 : (s.objectPools.foldl (fun st p => destroyPoolList st p.2)
          s).validActors a = true := h1
      rw [hdest] at h2
      simp at h2
  · show (destroyMainRoot (clearMaps (destroyAllPools s))).objectPools = []
    rw [destroyMainRoot_objectPools]
    rfl
  · show (destroyMainRoot
      (clearMaps (destroyAllPools s))).actorToClassMap = []
    rw [destroyMainRoot_actorToClassMap]
    rfl
  · show (destroyMainRoot (clearMaps (destroyAllPools s))).poolRoots = []
    rw [destroyMainRoot_poolRoots]
    rfl

/-- C8 witness: concrete teardown after prewarming one actor of class 5:
the maps are empty, no valid main root remains, and the pooled actor 0 is
destroyed. -/
theorem C8_teardown_completeness_witness :
    (DeinitializePool (InitializePool freshState (some 5) 1
        EPoolType.GameObjects)).objectPools = []
    ∧ (DeinitializePool (InitializePool freshState (some 5) 1
        EPoolType.GameObjects)).actorToClassMap = []
    ∧ (DeinitializePool (InitializePool freshState (some 5) 1
        EPoolType.GameObjects)).poolRoots = []
    ∧ isValidOpt (DeinitializePool (InitializePool freshState (some 5) 1
        EPoolType.GameObjects))
        (DeinitializePool (InitializePool freshState (some 5) 1
          EPoolType.GameObjects)).mainPoolRoot = false
    ∧ (DeinitializePool (InitializePool freshState (some 5) 1
        EPoolType.GameObjects)).validActors 0 = false := by
  obtain ⟨h1, h2, h3, h4, h5⟩ := C8_teardown_completeness
    (InitializePool freshState (some 5) 1 EPoolType.GameObjects)
  exact ⟨h2, h3, h4, h5, h1 (5, [0]) (by decide) 0 (by decide)⟩

/-- C10: teardown leaves a checked-out (valid, not pooled, non-root)
instance alive, yet clears the ownership index, so a later release of that
instance takes the foreign path: it warns and destroys it. -/
theorem C10_teardown_spares_active (s : SysState) (x : Nat)
    (hv : s.validActors x = true)
    (hnp : ∀ p ∈ s.objectPools, x ∉ p.2)
    (hmr : s.mainPoolRoot ≠ some x) :
    (DeinitializePool s).validActors x = true
    ∧ (DeinitializePool s).actorToClassMap = []
    ∧ (ReturnObjectToPool (DeinitializePool s) x).warnings
        = (DeinitializePool s).warnings + 1
    ∧ (ReturnObjectToPool (DeinitializePool s) x).validActors x = false := by
  have hv1 : (destroyAllPools s).validActors x = true := by
    show (s.objectPools.foldl (fun st p => destroyPoolList st p.2)
      s).validActors x = true
    rw [foldPools_valid_other s.objectPools s x hnp]
    exact hv
  have hmr2 : (clearMaps (destroyAllPools s)).mainPoolRoot ≠ some x := by
    show (s.objectPools.foldl (fun st p => destroyPoolList st p.2)
      s).mainPoolRoot ≠ some x
    rw [foldPools_mainPoolRoot]
    exact hmr
  have hv3 : (DeinitializePool s).validActors x = true := by
    show (destroyMainRoot (clearMaps (destroyAllPools s))).validActors x
      = true
    rw [destroyMainRoot_valid_other _ x hmr2]
    exact hv1
  have hmap : (DeinitializePool s).actorToClassMap = [] := by
    show (destroyMainRoot
      (clearMaps (destroyAllPools s))).actorToClassMap = []
    rw [destroyMainRoot_actorToClassMap]
    rfl
  have hfind : tmapFind (DeinitializePool s).actorToClassMap x = none := by
    rw [hmap]
    rfl
  have hret := ReturnObjectToPool_foreign (DeinitializePool s) x hv3 hfind
  refine ⟨hv3, hmap, ?_, ?_⟩
  · rw [hret, destroyActorHost_warnings]
  · rw [hret, destroyActorHost_validActors]
    simp

/-- C10 witness: at `mappedState` (actor 0 valid and checked out),
teardown spares actor 0, empties the index, and a later release warns and
destroys it. -/
theorem C10_teardown_spares_active_witness :
    (DeinitializePool mappedState).validActors 0 = true
    ∧ (DeinitializePool mappedState).actorToClassMap = []
    ∧ (ReturnObjectToPool (DeinitializePool mappedState) 0).warnings
        = (DeinitializePool mappedState).warnings + 1
    ∧ (ReturnObjectToPool (DeinitializePool mappedState) 0).validActors 0
        = false :=
  C10_teardown_spares_active mappedState 0 (by decide) (by decide)
    (by decide)

/-- C2 counterexample: with an exhausted (absent) pool for the unseen type
7 and a host that refuses construction, acquire returns the failure
indicator, but the pool registry is mutated: a new empty pool entry for
type 7 is left behind (`FindOrAdd` materializes it before the spawn is
attempted). -/
theorem C2_construction_failure_counterexample :
    (SpawnObject refuseState (some 7) (0, 0, 0) (0, 0, 0)
        EPoolType.GameObjects).1 = none
    ∧ tmapFind refuseState.objectPools 7 = none
    ∧ tmapFind (SpawnObject refuseState (some 7) (0, 0, 0) (0, 0, 0)
        EPoolType.GameObjects).2.objectPools 7 = some [] :=
  ⟨by decide, by decide, by decide⟩

/-- C2 (amended): when the pool holds no valid instance and the host
refuses to construct, acquire returns the failure indicator and mutates
neither the ownership index, nor the set of valid instances, nor any other
type's pool — but it does leave an (empty) pool entry for the requested
type, having discarded any invalid handles popped during the search. -/
theorem C2_construction_failure (s : SysState) (cls : Nat) (loc rot : V3)
    (pt : EPoolType)
    (hW : s.hasWorld = true)
    (hor : s.spawnOracle s.spawnCount = false)
    (hbad : ∀ b ∈ (tmapFind s.objectPools cls).getD [],
      s.validActors b = false) :
    (SpawnObject s (some cls) loc rot pt).1 = none
    ∧ (SpawnObject s (some cls) loc rot pt).2.actorToClassMap
        = s.actorToClassMap
    ∧ (SpawnObject s (some cls) loc rot pt).2.validActors = s.validActors
    ∧ (SpawnObject s (some cls) loc rot pt).2.warnings = s.warnings
    ∧ tmapFind (SpawnObject s (some cls) loc rot pt).2.objectPools cls
        = some []
    ∧ (∀ c2, c2 ≠ cls →
        tmapFind (SpawnObject s (some cls) loc rot pt).2.objectPools c2
          = tmapFind s.objectPools c2) := by
  have hpop := popValid_all_invalid s ((tmapFind s.objectPools cls).getD [])
    hbad
  rw [SpawnObject_new_fail s cls loc rot pt [] hW hpop hor]
  refine ⟨rfl, rfl, rfl, rfl, ?_, ?_⟩
  · show tmapFind (tmapAdd s.objectPools cls []) cls = some []
    exact tmapFind_tmapAdd_self s.objectPools cls []
  · intro c2 hc2
    show tmapFind (tmapAdd s.objectPools cls []) c2
      = tmapFind s.objectPools c2
    exact tmapFind_tmapAdd_ne s.objectPools cls c2 [] hc2

/-- C2 witness: concrete instantiation at `refuseState` with the unseen
type 7. -/
theorem C2_construction_failure_witness :
    (SpawnObject refuseState (some 7) (0, 0, 0) (0, 0, 0)
        EPoolType.Nodes).1 = none
    ∧ (SpawnObject refuseState (some 7) (0, 0, 0) (0, 0, 0)
        EPoolType.Nodes).2.actorToClassMap = refuseState.actorToClassMap
    ∧ tmapFind (SpawnObject refuseState (some 7) (0, 0, 0) (0, 0, 0)
        EPoolType.Nodes).2.objectPools 9
        = tmapFind refuseState.objectPools 9 := by
  obtain ⟨h1, h2, h3, h4, h5, h6⟩ := C2_construction_failure refuseState 7
    (0, 0, 0) (0, 0, 0) EPoolType.Nodes (by decide) (by decide) (by decide)
  exact ⟨h1, h2, h6 9 (by decide)⟩

/-- C1: evaluation at the failing input. Prewarming 5 instances of class 5
into an initially empty pool with an always-succeeding host leaves the
pool with exactly ONE inactive instance, not 5: each loop iteration's
acquire pops the instance that the previous iteration just released. Only
3 host constructions happen in total (one pooled actor plus the two
organizational roots). -/
theorem C1_prewarm_eval :
    ((tmapFind (InitializePool freshState (some 5) 5
        EPoolType.GameObjects).objectPools 5).getD []).length = 1
    ∧ (InitializePool freshState (some 5) 5
        EPoolType.GameObjects).nextId = 3 :=
  ⟨by decide, by decide⟩
